import Mathlib

/- Shallow embedding of src/contracts/SocialReputationFHE.sol.

   Encrypted euint32 values are modelled by their plaintext semantics:
   natural numbers with arithmetic reduced modulo 2^32, matching the FHEVM
   euint32 wrap-around behaviour (FHE.add / FHE.mul wrap, FHE.div is
   truncating division, FHE.max is the maximum, FHE.gte a plaintext-level
   comparison, FHE.cmux a select).  Addresses and ids are Nat.  Solidity
   mappings are total functions returning the zero struct by default,
   exactly as EVM storage does.  Functions that can revert return
   Except Err; a revert produces no state change by construction.  The
   asynchronous decryption oracle is modelled by passing the oracle-chosen
   request id to requestProofDecryption explicitly and the decoded
   cleartexts to decryptReputationProof explicitly; a "valid" callback
   delivery is one whose cleartexts equal the stored (plaintext-modelled)
   ciphertext values. -/

def U32 : Nat := 2 ^ 32

def asEuint32 (n : Nat) : Nat := n % U32

def fheAdd (a b : Nat) : Nat := (a + b) % U32

def fheMul (a b : Nat) : Nat := (a * b) % U32

def fheSub (a b : Nat) : Nat := (a + U32 - b % U32) % U32

def fheDiv (a b : Nat) : Nat := a / b

def fheMax (a b : Nat) : Nat := max a b

def fheGte (a b : Nat) : Bool := decide (b ≤ a)

def fheCmux (c : Bool) (a b : Nat) : Nat := if c then a else b

/-- Error taxonomy of the spec, mapped onto the contract's require strings:
    Unauthorized ("Not issuer" / "Not trusted issuer" / "Not admin"),
    ProfileUninitialized ("Profile not initialized"), InvalidProof
    ("Invalid proof"), AlreadyRevealed ("Already decrypted"),
    UnknownRequest ("Invalid request").  NotFound appears in the spec's
    taxonomy but no require in the contract produces it. -/
inductive Err where
  | Unauthorized
  | NotFound
  | ProfileUninitialized
  | InvalidProof
  | AlreadyRevealed
  | UnknownRequest
  deriving DecidableEq

structure EncryptedVC where
  id : Nat
  issuer : Nat
  subject : Nat
  encryptedType : Nat
  encryptedScore : Nat
  encryptedWeight : Nat
  timestamp : Nat
  isActive : Bool
  deriving DecidableEq

def defaultVC : EncryptedVC := ⟨0, 0, 0, 0, 0, 0, 0, false⟩

structure ReputationProfile where
  encryptedTotalScore : Nat
  encryptedTrustLevel : Nat
  encryptedCredentialCount : Nat
  isInitialized : Bool
  deriving DecidableEq

def defaultProfile : ReputationProfile := ⟨0, 0, 0, false⟩

structure ReputationProof where
  encryptedMinScore : Nat
  encryptedProof : Nat
  isValid : Bool
  deriving DecidableEq

def defaultProof : ReputationProof := ⟨0, 0, false⟩

structure DecryptedProof where
  minScore : Nat
  proofValue : Nat
  isRevealed : Bool
  deriving DecidableEq

def defaultDecrypted : DecryptedProof := ⟨0, 0, false⟩

structure ContractState where
  vcCount : Nat
  verifiableCredentials : Nat → EncryptedVC
  reputationProfiles : Nat → ReputationProfile
  reputationProofs : Nat → ReputationProof
  decryptedProofs : Nat → DecryptedProof
  userCredentials : Nat → List Nat
  trustedIssuers : Nat → Bool
  requestToProofId : Nat → Nat
  systemAdmin : Nat

def setMap {α : Type} (m : Nat → α) (k : Nat) (v : α) : Nat → α :=
  fun k' => if k' = k then v else m k'

/-- Embedding of issueEncryptedVC (contract lines 76-109): onlyIssuer guard,
    sequential id allocation, credential append, lazy profile init. -/
def issueEncryptedVC (st : ContractState)
    (caller subject eType eScore eWeight ts : Nat) : Except Err ContractState :=
  if st.trustedIssuers caller = true then
    let newId := st.vcCount + 1
    let st₁ : ContractState :=
      { st with
        vcCount := newId,
        verifiableCredentials := setMap st.verifiableCredentials newId
          ⟨newId, caller, subject, eType, eScore, eWeight, ts, true⟩,
        userCredentials := fun a =>
          if a = subject then st.userCredentials a ++ [newId]
          else st.userCredentials a }
    if (st₁.reputationProfiles subject).isInitialized = true then Except.ok st₁
    else
      let profiles' := setMap st₁.reputationProfiles subject
        ⟨asEuint32 0, asEuint32 0, asEuint32 0, true⟩
      Except.ok { st₁ with reputationProfiles := profiles' }
  else Except.error Err.Unauthorized

/-- Loop body of updateReputationProfile (contract lines 121-128): an active
    credential adds score*weight to the score accumulator, weight to the
    weight accumulator and 1 to the count; an inactive one is skipped. -/
def vcFoldStep (st : ContractState) (acc : Nat × Nat × Nat) (cid : Nat) :
    Nat × Nat × Nat :=
  let vc := st.verifiableCredentials cid
  if vc.isActive then
    (fheAdd acc.1 (fheMul vc.encryptedScore vc.encryptedWeight),
     fheAdd acc.2.1 vc.encryptedWeight,
     fheAdd acc.2.2 (asEuint32 1))
  else acc

def recomputeFold (st : ContractState) (subject : Nat) : Nat × Nat × Nat :=
  (st.userCredentials subject).foldl (vcFoldStep st)
    (asEuint32 0, asEuint32 0, asEuint32 0)

/-- Embedding of calculateTrustLevel (contract lines 209-215). -/
def calculateTrustLevel (profile : ReputationProfile) : Nat :=
  fheAdd (fheDiv profile.encryptedTotalScore (asEuint32 10))
         (fheDiv profile.encryptedCredentialCount (asEuint32 5))

/-- Profile stored by updateReputationProfile: totalScore and count are
    written first, then the trust level is computed from the updated
    profile, mirroring the storage-pointer sequence of lines 130-134. -/
def recomputedProfile (st : ContractState) (subject : Nat) : ReputationProfile :=
  let profile := st.reputationProfiles subject
  let acc := recomputeFold st subject
  let p₁ : ReputationProfile :=
    { profile with
      encryptedTotalScore := fheDiv acc.1 (fheMax acc.2.1 (asEuint32 1)),
      encryptedCredentialCount := acc.2.2 }
  { p₁ with encryptedTrustLevel := calculateTrustLevel p₁ }

/-- Embedding of updateReputationProfile (contract lines 112-137). -/
def updateReputationProfile (st : ContractState) (subject : Nat) :
    Except Err ContractState :=
  if (st.reputationProfiles subject).isInitialized = true then
    let profiles' := setMap st.reputationProfiles subject (recomputedProfile st subject)
    Except.ok { st with reputationProfiles := profiles' }
  else Except.error Err.ProfileUninitialized

/-- Embedding of generateReputationProof (contract lines 140-167). -/
def generateReputationProof (st : ContractState) (subject minScore : Nat) :
    Except Err (Nat × ContractState) :=
  if (st.reputationProfiles subject).isInitialized = true then
    let newProofId := st.vcCount + 1
    let totalScore := (st.reputationProfiles subject).encryptedTotalScore
    let proofValue := fheCmux (fheGte totalScore minScore) totalScore (asEuint32 0)
    Except.ok (newProofId,
      { st with
        vcCount := newProofId,
        reputationProofs := setMap st.reputationProofs newProofId
          ⟨minScore, proofValue, true⟩,
        decryptedProofs := setMap st.decryptedProofs newProofId
          ⟨0, 0, false⟩ })
  else Except.error Err.ProfileUninitialized

/-- Embedding of requestProofDecryption (contract lines 170-181); reqId is
    the opaque id returned by the external oracle's FHE.requestDecryption. -/
def requestProofDecryption (st : ContractState) (proofId reqId : Nat) :
    Except Err ContractState :=
  if (st.reputationProofs proofId).isValid = true then
    if (st.decryptedProofs proofId).isRevealed = true then
      Except.error Err.AlreadyRevealed
    else
      let router' := setMap st.requestToProofId reqId proofId
      Except.ok { st with requestToProofId := router' }
  else Except.error Err.InvalidProof

/-- Embedding of decryptReputationProof (contract lines 184-206); ms and pv
    are the two uint32 cleartexts decoded from the callback payload. -/
def decryptReputationProof (st : ContractState) (requestId ms pv : Nat) :
    Except Err ContractState :=
  if st.requestToProofId requestId = 0 then Except.error Err.UnknownRequest
  else if (st.reputationProofs (st.requestToProofId requestId)).isValid = true then
    if (st.decryptedProofs (st.requestToProofId requestId)).isRevealed = true then
      Except.error Err.AlreadyRevealed
    else
      let decrypted' := setMap st.decryptedProofs (st.requestToProofId requestId)
        ⟨ms, pv, true⟩
      Except.ok { st with decryptedProofs := decrypted' }
  else Except.error Err.InvalidProof

/-- Embedding of revokeCredential (contract lines 289-293): the only guard
    is require(vc.issuer == msg.sender); an unknown id reads the zero
    struct, whose issuer is the zero address. -/
def revokeCredential (st : ContractState) (caller vcId : Nat) :
    Except Err ContractState :=
  if (st.verifiableCredentials vcId).issuer = caller then
    let creds' := setMap st.verifiableCredentials vcId
      { st.verifiableCredentials vcId with isActive := false }
    Except.ok { st with verifiableCredentials := creds' }
  else Except.error Err.Unauthorized

/-- Embedding of getEncryptedVC (contract lines 309-328): an unconditional
    view returning (issuer, subject, type, score, weight, timestamp,
    isActive); it has no require and never reverts. -/
def getEncryptedVC (st : ContractState) (vcId : Nat) :
    Except Err (Nat × Nat × Nat × Nat × Nat × Nat × Bool) :=
  let vc := st.verifiableCredentials vcId
  Except.ok (vc.issuer, vc.subject, vc.encryptedType, vc.encryptedScore,
    vc.encryptedWeight, vc.timestamp, vc.isActive)

/-- Embedding of calculateConsistency (contract lines 385-403): with fewer
    than two entries in the subject's credential list it returns 100; there
    is no profile-initialization require anywhere in the function. -/
def calculateConsistency (st : ContractState) (subject : Nat) :
    Except Err Nat :=
  let credentials := st.userCredentials subject
  if credentials.length < 2 then Except.ok (asEuint32 100)
  else
    let avgScore := (st.reputationProfiles subject).encryptedTotalScore
    let totalDeviation := credentials.foldl
      (fun td cid =>
        let vc := st.verifiableCredentials cid
        let deviation := fheSub vc.encryptedScore avgScore
        fheAdd td (fheMul deviation deviation)) (asEuint32 0)
    let variance := fheDiv totalDeviation (asEuint32 credentials.length)
    Except.ok (fheSub (asEuint32 100) (fheDiv variance (asEuint32 10)))

/-- Embedding of generateTimeBoundProof (contract lines 406-416): generates
    a normal proof, then immediately sets its isValid flag to false; the
    validityPeriod parameter is never read. -/
def generateTimeBoundProof (st : ContractState)
    (subject minScore validityPeriod : Nat) : Except Err (Nat × ContractState) :=
  match generateReputationProof st subject minScore with
  | Except.error e => Except.error e
  | Except.ok (proofId, st') =>
      let proofs' := setMap st'.reputationProofs proofId
        { st'.reputationProofs proofId with isValid := false }
      Except.ok (proofId, { st' with reputationProofs := proofs' })

/-- Credential-store operations that may run between proof generation and
    reveal; a failed call leaves the state unchanged (revert semantics). -/
inductive CredOp where
  | issue (caller subject eType eScore eWeight ts : Nat)
  | revoke (caller vcId : Nat)
  | update (subject : Nat)

def applyCredOp (st : ContractState) : CredOp → ContractState
  | CredOp.issue caller subject eType eScore eWeight ts =>
      match issueEncryptedVC st caller subject eType eScore eWeight ts with
      | Except.ok st' => st'
      | Except.error _ => st
  | CredOp.revoke caller vcId =>
      match revokeCredential st caller vcId with
      | Except.ok st' => st'
      | Except.error _ => st
  | CredOp.update subject =>
      match updateReputationProfile st subject with
      | Except.ok st' => st'
      | Except.error _ => st

def applyCredOps (ops : List CredOp) (st : ContractState) : ContractState :=
  ops.foldl applyCredOp st

/-- Sum of f over the active credentials referenced by an id list, with the
    contract's lookup semantics (unknown ids read the zero struct, which is
    inactive).  Spec-side counterpart of the updateReputationProfile loop. -/
def sumActive (st : ContractState) (f : EncryptedVC → Nat) : List Nat → Nat
  | [] => 0
  | cid :: rest =>
      (if (st.verifiableCredentials cid).isActive
       then f (st.verifiableCredentials cid) else 0)
      + sumActive st f rest

def scoreSumIds (st : ContractState) (l : List Nat) : Nat :=
  sumActive st (fun vc => vc.encryptedScore * vc.encryptedWeight) l

def weightSumIds (st : ContractState) (l : List Nat) : Nat :=
  sumActive st (fun vc => vc.encryptedWeight) l

def activeCountIds (st : ContractState) (l : List Nat) : Nat :=
  sumActive st (fun _ => 1) l

/-- Statement apparatus for C4: the same state with one credential id
    removed from a subject's credential list. -/
def withCredentialRemoved (st : ContractState) (subject vcId : Nat) :
    ContractState :=
  { st with userCredentials := fun a =>
      if a = subject then (st.userCredentials a).filter (fun i => i ≠ vcId)
      else st.userCredentials a }

/- Concrete states used by witnesses and counterexamples. -/

def st0 : ContractState :=
  ⟨0, fun _ => defaultVC, fun _ => defaultProfile, fun _ => defaultProof,
   fun _ => defaultDecrypted, fun _ => [], fun _ => false, fun _ => 0, 0⟩

def vcW1 : EncryptedVC := ⟨1, 9, 5, 1, 80, 1, 1000, true⟩

def vcW2 : EncryptedVC := ⟨2, 9, 5, 1, 60, 1, 1001, true⟩

def stW : ContractState :=
  { vcCount := 2,
    verifiableCredentials := fun i =>
      if i = 1 then vcW1 else if i = 2 then vcW2 else defaultVC,
    reputationProfiles := fun a =>
      if a = 5 then ⟨0, 0, 0, true⟩ else defaultProfile,
    reputationProofs := fun _ => defaultProof,
    decryptedProofs := fun _ => defaultDecrypted,
    userCredentials := fun a => if a = 5 then [1, 2] else [],
    trustedIssuers := fun a => decide (a = 9),
    requestToProofId := fun _ => 0,
    systemAdmin := 0 }

def stW2 : ContractState :=
  { vcCount := 0,
    verifiableCredentials := fun _ => defaultVC,
    reputationProfiles := fun a =>
      if a = 5 then ⟨50, 5, 1, true⟩ else defaultProfile,
    reputationProofs := fun _ => defaultProof,
    decryptedProofs := fun _ => defaultDecrypted,
    userCredentials := fun _ => [],
    trustedIssuers := fun _ => false,
    requestToProofId := fun _ => 0,
    systemAdmin := 0 }

def stW3 : ContractState :=
  { stW2 with
    reputationProofs := fun i => if i = 1 then ⟨30, 50, true⟩ else defaultProof,
    requestToProofId := fun r => if r = 77 then 1 else 0 }

theorem setMap_same {α : Type} (m : Nat → α) (k : Nat) (v : α) :
    setMap m k v k = v := by
  simp [setMap]

lemma setMap_other {α : Type} (m : Nat → α) (k k' : Nat) (v : α) (h : k' ≠ k) :
    setMap m k v k' = m k' := by
  simp [setMap, h]

lemma revoke_ok {st : ContractState} {caller vcId : Nat}
    (h : (st.verifiableCredentials vcId).issuer = caller) :
    revokeCredential st caller vcId = Except.ok
      { st with
        verifiableCredentials := setMap st.verifiableCredentials vcId
          { st.verifiableCredentials vcId with isActive := false } } := by
  simp [revokeCredential, h]

/-- C10: the result of generateTimeBoundProof is independent of its
    validityPeriod argument — the parameter is never read, so two calls
    differing only in validityPeriod return the same proof id and produce
    identical resulting stored state. -/
theorem C10_timeBound_validityPeriod_irrelevant
    (st : ContractState) (subject minScore p₁ p₂ : Nat) :
    generateTimeBoundProof st subject minScore p₁ =
    generateTimeBoundProof st subject minScore p₂ := rfl

/-- C8 (amended): the read accessor getEncryptedVC never fails; for every
    id, known or unknown, it returns the stored (or zero-default) struct
    fields, so an unknown id yields zero addresses and isActive = false
    rather than a NotFound failure. -/
theorem C8_getEncryptedVC_total (st : ContractState) (vcId : Nat) :
    getEncryptedVC st vcId = Except.ok
      ((st.verifiableCredentials vcId).issuer,
       (st.verifiableCredentials vcId).subject,
       (st.verifiableCredentials vcId).encryptedType,
       (st.verifiableCredentials vcId).encryptedScore,
       (st.verifiableCredentials vcId).encryptedWeight,
       (st.verifiableCredentials vcId).timestamp,
       (st.verifiableCredentials vcId).isActive) := rfl

/-- C8 counterexample: in the initial state id 1 was never issued, yet
    getEncryptedVC does not fail with NotFound — it returns the zero
    struct's fields. -/
theorem C8_getEncryptedVC_counterexample :
    getEncryptedVC st0 1 ≠ Except.error Err.NotFound := by
  intro hc
  have h : getEncryptedVC st0 1 = Except.ok (0, 0, 0, 0, 0, 0, false) := rfl
  rw [h] at hc
  exact Except.noConfusion hc

/-- C6 (amended): calculateConsistency returns the maximum consistency
    value 100 whenever the subject's credential list has fewer than two
    entries — in particular for a subject with exactly one (active)
    credential and also for a subject with zero credentials; the function
    performs no profile-initialization check, so the zero-credential case
    returns 100 instead of failing with ProfileUninitialized. -/
theorem C6_consistency_short_list (st : ContractState) (subject : Nat)
    (h : (st.userCredentials subject).length < 2) :
    calculateConsistency st subject = Except.ok 100 := by
  simp [calculateConsistency, h, asEuint32, U32]

theorem C6_consistency_short_list_witness :
    (st0.userCredentials 7).length < 2 ∧
    calculateConsistency st0 7 = Except.ok 100 :=
  ⟨by decide, C6_consistency_short_list st0 7 (by decide)⟩

/-- C6 counterexample: a subject with zero credentials does not fail with
    ProfileUninitialized — calculateConsistency returns 100 instead. -/
theorem C6_consistency_counterexample :
    calculateConsistency st0 7 ≠ Except.error Err.ProfileUninitialized := by
  intro hc
  have h : calculateConsistency st0 7 = Except.ok 100 := rfl
  rw [h] at hc
  exact Except.noConfusion hc

/-- C7 (amended): revokeCredential fails with Unauthorized whenever the
    caller differs from the stored credential's issuer — including every
    never-issued id, whose stored issuer is the zero address, so a nonzero
    caller gets Unauthorized there rather than NotFound; with caller equal
    to the stored issuer it succeeds and sets isActive to false, and a
    second revocation of the already-inactive credential is still permitted
    and leaves isActive = false. -/
theorem C7_revoke_auth (st₁ st₂ : ContractState) (c₁ id₁ c₂ id₂ : Nat)
    (h₁ : (st₁.verifiableCredentials id₁).issuer ≠ c₁)
    (h₂ : (st₂.verifiableCredentials id₂).issuer = c₂) :
    revokeCredential st₁ c₁ id₁ = Except.error Err.Unauthorized ∧
    ∃ st', revokeCredential st₂ c₂ id₂ = Except.ok st' ∧
      st'.verifiableCredentials id₂ =
        { st₂.verifiableCredentials id₂ with isActive := false } ∧
      ∃ st'', revokeCredential st' c₂ id₂ = Except.ok st'' ∧
        st''.verifiableCredentials id₂ =
          { st₂.verifiableCredentials id₂ with isActive := false } := by
  refine ⟨by simp [revokeCredential, h₁], _, revoke_ok h₂, ?_, ?_⟩
  · simp [setMap]
  · refine ⟨_, revoke_ok (by simp [setMap, h₂]), ?_⟩
    simp [setMap]

theorem C7_revoke_auth_witness :
    (stW.verifiableCredentials 1).issuer ≠ 4 ∧
    (stW.verifiableCredentials 1).issuer = 9 ∧
    (revokeCredential stW 4 1 = Except.error Err.Unauthorized ∧
     ∃ st', revokeCredential stW 9 1 = Except.ok st' ∧
       st'.verifiableCredentials 1 =
         { stW.verifiableCredentials 1 with isActive := false } ∧
       ∃ st'', revokeCredential st' 9 1 = Except.ok st'' ∧
         st''.verifiableCredentials 1 =
           { stW.verifiableCredentials 1 with isActive := false }) :=
  ⟨by decide, by decide, C7_revoke_auth stW stW 4 1 9 1 (by decide) (by decide)⟩

/-- C7 counterexample: id 1 was never issued in the initial state, yet
    revoking it does not fail with NotFound — the guard compares the zero
    struct's issuer with the caller and fails with Unauthorized instead. -/
theorem C7_revoke_counterexample :
    revokeCredential st0 4 1 ≠ Except.error Err.NotFound := by
  intro hc
  have h : revokeCredential st0 4 1 = Except.error Err.Unauthorized := rfl
  rw [h] at hc
  injection hc with h2
  exact absurd h2 (by decide)

lemma update_ok_intro {st : ContractState} {subject : Nat}
    (hinit : (st.reputationProfiles subject).isInitialized = true) :
    updateReputationProfile st subject = Except.ok
      { st with
        reputationProfiles := setMap st.reputationProfiles subject
          (recomputedProfile st subject) } := by
  simp [updateReputationProfile, hinit]

lemma update_ok_elim {st st₁ : ContractState} {subject : Nat}
    (h : updateReputationProfile st subject = Except.ok st₁) :
    (st.reputationProfiles subject).isInitialized = true ∧
    st₁ = { st with
            reputationProfiles := setMap st.reputationProfiles subject
              (recomputedProfile st subject) } := by
  by_cases hinit : (st.reputationProfiles subject).isInitialized = true
  · refine ⟨hinit, ?_⟩
    rw [update_ok_intro hinit] at h
    injection h with h'
    exact h'.symm
  · simp [updateReputationProfile, hinit] at h

lemma recomputedProfile_isInitialized (st : ContractState) (subject : Nat) :
    (recomputedProfile st subject).isInitialized =
    (st.reputationProfiles subject).isInitialized := by
  simp [recomputedProfile]

lemma recomputedProfile_congr (st st' : ContractState) (subject : Nat)
    (hcred : st'.verifiableCredentials = st.verifiableCredentials)
    (hlist : st'.userCredentials = st.userCredentials)
    (hinit : (st'.reputationProfiles subject).isInitialized =
             (st.reputationProfiles subject).isInitialized) :
    recomputedProfile st' subject = recomputedProfile st subject := by
  have hfold : recomputeFold st' subject = recomputeFold st subject := by
    unfold recomputeFold vcFoldStep
    rw [hcred, hlist]
  simp [recomputedProfile, calculateTrustLevel, hfold, hinit]

/-- C3: recompute (updateReputationProfile) is idempotent — after one
    successful recompute, a second recompute with no intervening credential
    change succeeds and stores a bit-identical profile (all of totalScore,
    trustLevel, credentialCount, and the initialization flag). -/
theorem C3_recompute_idempotent (st : ContractState) (subject : Nat)
    (st₁ : ContractState)
    (h : updateReputationProfile st subject = Except.ok st₁) :
    ∃ st₂, updateReputationProfile st₁ subject = Except.ok st₂ ∧
      st₂.reputationProfiles subject = st₁.reputationProfiles subject := by
  obtain ⟨hinit, hst₁⟩ := update_ok_elim h
  have ecred : st₁.verifiableCredentials = st.verifiableCredentials := by
    rw [hst₁]
  have elist : st₁.userCredentials = st.userCredentials := by
    rw [hst₁]
  have eprof : st₁.reputationProfiles subject = recomputedProfile st subject := by
    rw [hst₁]
    exact setMap_same _ _ _
  have hinit' : (st₁.reputationProfiles subject).isInitialized = true := by
    rw [eprof, recomputedProfile_isInitialized]
    exact hinit
  refine ⟨_, update_ok_intro hinit', ?_⟩
  have hcongr : recomputedProfile st₁ subject = recomputedProfile st subject :=
    recomputedProfile_congr st st₁ subject ecred elist
      (by rw [eprof, recomputedProfile_isInitialized])
  calc ({ st₁ with
          reputationProfiles := setMap st₁.reputationProfiles subject
            (recomputedProfile st₁ subject) } : ContractState).reputationProfiles
          subject
      = recomputedProfile st₁ subject := setMap_same _ _ _
    _ = recomputedProfile st subject := hcongr
    _ = st₁.reputationProfiles subject := eprof.symm

theorem C3_recompute_idempotent_witness :
    ∃ st₁, updateReputationProfile stW 5 = Except.ok st₁ ∧
      ∃ st₂, updateReputationProfile st₁ 5 = Except.ok st₂ ∧
        st₂.reputationProfiles 5 = st₁.reputationProfiles 5 :=
  ⟨_, rfl, C3_recompute_idempotent stW 5 _ rfl⟩

lemma decrypt_ok_elim {st st' : ContractState} {reqId ms pv : Nat}
    (h : decryptReputationProof st reqId ms pv = Except.ok st') :
    st.requestToProofId reqId ≠ 0 ∧
    (st.reputationProofs (st.requestToProofId reqId)).isValid = true ∧
    (st.decryptedProofs (st.requestToProofId reqId)).isRevealed = false ∧
    st' = { st with
            decryptedProofs := setMap st.decryptedProofs
              (st.requestToProofId reqId) ⟨ms, pv, true⟩ } := by
  by_cases h0 : st.requestToProofId reqId = 0
  · simp [decryptReputationProof, h0] at h
  · by_cases hv : (st.reputationProofs (st.requestToProofId reqId)).isValid = true
    · by_cases hr : (st.decryptedProofs (st.requestToProofId reqId)).isRevealed = true
      · simp [decryptReputationProof, h0, hv, hr] at h
      · refine ⟨h0, hv, by simpa using hr, ?_⟩
        simp [decryptReputationProof, h0, hv, hr] at h
        exact h.symm
    · simp [decryptReputationProof, h0, hv] at h

/-- C5: once a callback for a requestId has been delivered (the mapped
    proof's DecryptedProof is revealed), a second delivery for the same
    requestId fails with AlreadyRevealed for any cleartexts, and the
    revealed minScore and proofValue written by the first delivery stand
    unchanged (a failing call produces no state change). -/
theorem C5_duplicate_callback (st : ContractState) (reqId ms pv : Nat)
    (st' : ContractState)
    (h : decryptReputationProof st reqId ms pv = Except.ok st') :
    ∀ ms' pv', decryptReputationProof st' reqId ms' pv' =
        Except.error Err.AlreadyRevealed ∧
      (st'.decryptedProofs (st'.requestToProofId reqId)).minScore = ms ∧
      (st'.decryptedProofs (st'.requestToProofId reqId)).proofValue = pv ∧
      (st'.decryptedProofs (st'.requestToProofId reqId)).isRevealed = true := by
  obtain ⟨h0, hv, hr, rfl⟩ := decrypt_ok_elim h
  intro ms' pv'
  refine ⟨?_, by simp [setMap], by simp [setMap], by simp [setMap]⟩
  simp [decryptReputationProof, h0, hv, setMap]

theorem C5_duplicate_callback_witness :
    ∃ st', decryptReputationProof stW3 77 30 50 = Except.ok st' ∧
      (decryptReputationProof st' 77 1 2 = Except.error Err.AlreadyRevealed ∧
       (st'.decryptedProofs (st'.requestToProofId 77)).minScore = 30 ∧
       (st'.decryptedProofs (st'.requestToProofId 77)).proofValue = 50 ∧
       (st'.decryptedProofs (st'.requestToProofId 77)).isRevealed = true) :=
  ⟨_, rfl, C5_duplicate_callback stW3 77 30 50 _ rfl 1 2⟩

lemma generate_ok_elim {st : ContractState} {subject minScore pid : Nat}
    {st₁ : ContractState}
    (h : generateReputationProof st subject minScore = Except.ok (pid, st₁)) :
    (st.reputationProfiles subject).isInitialized = true ∧
    pid = st.vcCount + 1 ∧
    st₁ = { st with
            vcCount := st.vcCount + 1,
            reputationProofs := setMap st.reputationProofs (st.vcCount + 1)
              ⟨minScore,
               fheCmux
                 (fheGte (st.reputationProfiles subject).encryptedTotalScore
                   minScore)
                 (st.reputationProfiles subject).encryptedTotalScore
                 (asEuint32 0),
               true⟩,
            decryptedProofs := setMap st.decryptedProofs (st.vcCount + 1)
              ⟨0, 0, false⟩ } := by
  by_cases hinit : (st.reputationProfiles subject).isInitialized = true
  · simp [generateReputationProof, hinit] at h
    exact ⟨hinit, h.1.symm, h.2.symm⟩
  · simp [generateReputationProof, hinit] at h

/-- C9: a time-bound proof is unusable immediately after creation — right
    after generateTimeBoundProof returns a proof id, the stored
    ReputationProof at that id has isValid = false, so a requestReveal on
    that id fails with InvalidProof. -/
theorem C9_timeBound_immediately_invalid (st : ContractState)
    (subject minScore validityPeriod reqId pid : Nat) (st' : ContractState)
    (h : generateTimeBoundProof st subject minScore validityPeriod =
      Except.ok (pid, st')) :
    (st'.reputationProofs pid).isValid = false ∧
    requestProofDecryption st' pid reqId = Except.error Err.InvalidProof := by
  unfold generateTimeBoundProof at h
  cases hg : generateReputationProof st subject minScore with
  | error e =>
    rw [hg] at h
    exact Except.noConfusion h
  | ok pr =>
    obtain ⟨pid₀, st₁⟩ := pr
    rw [hg] at h
    simp at h
    obtain ⟨rfl, rfl⟩ := h
    constructor
    · simp [setMap]
    · simp [requestProofDecryption, setMap]

theorem C9_timeBound_immediately_invalid_witness :
    ∃ pid st', generateTimeBoundProof stW2 5 30 9999 = Except.ok (pid, st') ∧
      (st'.reputationProofs pid).isValid = false ∧
      requestProofDecryption st' pid 3 = Except.error Err.InvalidProof :=
  ⟨1, _, rfl, C9_timeBound_immediately_invalid stW2 5 30 9999 3 1 _ rfl⟩


lemma issue_preserves {st st' : ContractState} {c s ty sc w ts : Nat}
    (h : issueEncryptedVC st c s ty sc w ts = Except.ok st') :
    st'.reputationProofs = st.reputationProofs ∧
    st'.decryptedProofs = st.decryptedProofs ∧
    st'.requestToProofId = st.requestToProofId := by
  by_cases htr : st.trustedIssuers c = true
  · by_cases hinit : (st.reputationProfiles s).isInitialized = true
    · simp [issueEncryptedVC, htr, hinit] at h
      subst h
      exact ⟨rfl, rfl, rfl⟩
    · simp [issueEncryptedVC, htr, hinit] at h
      subst h
      exact ⟨rfl, rfl, rfl⟩
  · simp [issueEncryptedVC, htr] at h

lemma revoke_preserves {st st' : ContractState} {c vcId : Nat}
    (h : revokeCredential st c vcId = Except.ok st') :
    st'.reputationProofs = st.reputationProofs ∧
    st'.decryptedProofs = st.decryptedProofs ∧
    st'.requestToProofId = st.requestToProofId := by
  by_cases hiss : (st.verifiableCredentials vcId).issuer = c
  · rw [revoke_ok hiss] at h
    injection h with h'
    subst h'
    exact ⟨rfl, rfl, rfl⟩
  · simp [revokeCredential, hiss] at h

lemma update_preserves {st st' : ContractState} {s : Nat}
    (h : updateReputationProfile st s = Except.ok st') :
    st'.reputationProofs = st.reputationProofs ∧
    st'.decryptedProofs = st.decryptedProofs ∧
    st'.requestToProofId = st.requestToProofId := by
  obtain ⟨-, rfl⟩ := update_ok_elim h
  exact ⟨rfl, rfl, rfl⟩

lemma applyCredOp_preserves (st : ContractState) (op : CredOp) :
    (applyCredOp st op).reputationProofs = st.reputationProofs ∧
    (applyCredOp st op).decryptedProofs = st.decryptedProofs ∧
    (applyCredOp st op).requestToProofId = st.requestToProofId := by
  cases op with
  | issue c s ty sc w ts =>
    cases h : issueEncryptedVC st c s ty sc w ts with
    | ok st' =>
      simp only [applyCredOp, h]
      exact issue_preserves h
    | error e =>
      simp [applyCredOp, h]
  | revoke c vcId =>
    cases h : revokeCredential st c vcId with
    | ok st' =>
      simp only [applyCredOp, h]
      exact revoke_preserves h
    | error e =>
      simp [applyCredOp, h]
  | update s =>
    cases h : updateReputationProfile st s with
    | ok st' =>
      simp only [applyCredOp, h]
      exact update_preserves h
    | error e =>
      simp [applyCredOp, h]

lemma applyCredOps_preserves (ops : List CredOp) (st : ContractState) :
    (applyCredOps ops st).reputationProofs = st.reputationProofs ∧
    (applyCredOps ops st).decryptedProofs = st.decryptedProofs ∧
    (applyCredOps ops st).requestToProofId = st.requestToProofId := by
  induction ops generalizing st with
  | nil => exact ⟨rfl, rfl, rfl⟩
  | cons op rest ih =>
    have h1 := applyCredOp_preserves st op
    have h2 := ih (applyCredOp st op)
    exact ⟨h2.1.trans h1.1, h2.2.1.trans h1.2.1, h2.2.2.trans h1.2.2⟩

lemma fheCmux_gte_eq_ite (ts t : Nat) :
    fheCmux (fheGte ts t) ts (asEuint32 0) = (if t ≤ ts then ts else 0) := by
  by_cases h : t ≤ ts <;> simp [fheCmux, fheGte, asEuint32, h]

lemma request_ok_intro {st : ContractState} {proofId : Nat} (reqId : Nat)
    (hv : (st.reputationProofs proofId).isValid = true)
    (hr : (st.decryptedProofs proofId).isRevealed = false) :
    requestProofDecryption st proofId reqId = Except.ok
      { st with
        requestToProofId := setMap st.requestToProofId reqId proofId } := by
  simp [requestProofDecryption, hv, hr]

lemma decrypt_ok_intro {st : ContractState} {reqId : Nat} (ms pv : Nat)
    (h0 : st.requestToProofId reqId ≠ 0)
    (hv : (st.reputationProofs (st.requestToProofId reqId)).isValid = true)
    (hr : (st.decryptedProofs (st.requestToProofId reqId)).isRevealed = false) :
    decryptReputationProof st reqId ms pv = Except.ok
      { st with
        decryptedProofs := setMap st.decryptedProofs
          (st.requestToProofId reqId) ⟨ms, pv, true⟩ } := by
  simp [decryptReputationProof, h0, hv, hr]

lemma reveal_chain (st₂ : ContractState) (pid reqId ms pv : Nat)
    (hpid : pid ≠ 0)
    (hval : (st₂.reputationProofs pid).isValid = true)
    (hrev : (st₂.decryptedProofs pid).isRevealed = false) :
    ∃ st₃, requestProofDecryption st₂ pid reqId = Except.ok st₃ ∧
      ∃ st₄, decryptReputationProof st₃ reqId ms pv = Except.ok st₄ ∧
        st₄.decryptedProofs pid = ⟨ms, pv, true⟩ := by
  refine ⟨_, request_ok_intro reqId hval hrev, ?_⟩
  set st₃ : ContractState :=
    { st₂ with requestToProofId := setMap st₂.requestToProofId reqId pid }
    with hst₃
  have erouter : st₃.requestToProofId reqId = pid := setMap_same _ _ _
  have h0 : st₃.requestToProofId reqId ≠ 0 := by
    rw [erouter]
    exact hpid
  have hval₃ : (st₃.reputationProofs (st₃.requestToProofId reqId)).isValid
      = true := by
    rw [erouter]
    exact hval
  have hrev₃ : (st₃.decryptedProofs (st₃.requestToProofId reqId)).isRevealed
      = false := by
    rw [erouter]
    exact hrev
  refine ⟨_, decrypt_ok_intro ms pv h0 hval₃ hrev₃, ?_⟩
  show setMap st₃.decryptedProofs (st₃.requestToProofId reqId)
      ⟨ms, pv, true⟩ pid = (⟨ms, pv, true⟩ : DecryptedProof)
  rw [erouter]
  exact setMap_same _ _ _

/-- C2: for an initialized subject, generateReputationProof stores a
    ReputationProof with isValid = true whose proof value is the select of
    totalScore over the threshold comparison taken at generation time,
    together with an unrevealed companion DecryptedProof; after any
    sequence of credential operations (issue / revoke / recompute), one
    requestProofDecryption and one valid callback delivery (cleartexts
    equal to the stored ciphertext values) succeed and set the
    DecryptedProof to revealed = true with proofValue equal to the
    generation-time totalScore when it met the threshold and 0 otherwise —
    the intervening credential changes never alter the stored value. -/
theorem C2_proof_lifecycle (st : ContractState) (subject minScore pid : Nat)
    (st₁ : ContractState) (ops : List CredOp) (reqId : Nat)
    (hgen : generateReputationProof st subject minScore =
      Except.ok (pid, st₁)) :
    st₁.reputationProofs pid =
      ⟨minScore,
       if minScore ≤ (st.reputationProfiles subject).encryptedTotalScore
       then (st.reputationProfiles subject).encryptedTotalScore else 0,
       true⟩ ∧
    st₁.decryptedProofs pid = ⟨0, 0, false⟩ ∧
    (∃ st₃, requestProofDecryption (applyCredOps ops st₁) pid reqId =
        Except.ok st₃ ∧
      ∃ st₄, decryptReputationProof st₃ reqId minScore
          (if minScore ≤ (st.reputationProfiles subject).encryptedTotalScore
           then (st.reputationProfiles subject).encryptedTotalScore else 0) =
          Except.ok st₄ ∧
        st₄.decryptedProofs pid =
          ⟨minScore,
           if minScore ≤ (st.reputationProfiles subject).encryptedTotalScore
           then (st.reputationProfiles subject).encryptedTotalScore else 0,
           true⟩) := by
  obtain ⟨hinit, hpid, hst₁⟩ := generate_ok_elim hgen
  subst hpid
  have eproof : st₁.reputationProofs (st.vcCount + 1) =
      ⟨minScore,
       if minScore ≤ (st.reputationProfiles subject).encryptedTotalScore
       then (st.reputationProfiles subject).encryptedTotalScore else 0,
       true⟩ := by
    rw [hst₁]
    show setMap st.reputationProofs (st.vcCount + 1) _ (st.vcCount + 1) = _
    rw [setMap_same, fheCmux_gte_eq_ite]
  have edec : st₁.decryptedProofs (st.vcCount + 1) = ⟨0, 0, false⟩ := by
    rw [hst₁]
    exact setMap_same _ _ _
  refine ⟨eproof, edec, ?_⟩
  have hp := applyCredOps_preserves ops st₁
  have hval : ((applyCredOps ops st₁).reputationProofs (st.vcCount + 1)).isValid
      = true := by
    rw [hp.1, eproof]
  have hrev :
      ((applyCredOps ops st₁).decryptedProofs (st.vcCount + 1)).isRevealed
      = false := by
    rw [hp.2.1, edec]
  exact reveal_chain (applyCredOps ops st₁) (st.vcCount + 1) reqId minScore
    (if minScore ≤ (st.reputationProfiles subject).encryptedTotalScore
     then (st.reputationProfiles subject).encryptedTotalScore else 0)
    (Nat.succ_ne_zero _) hval hrev

theorem C2_proof_lifecycle_witness :
    ∃ st₁, generateReputationProof stW2 5 30 = Except.ok (1, st₁) ∧
      (st₁.reputationProofs 1 = ⟨30, 50, true⟩ ∧
       st₁.decryptedProofs 1 = ⟨0, 0, false⟩ ∧
       (∃ st₃, requestProofDecryption (applyCredOps [] st₁) 1 77 =
           Except.ok st₃ ∧
         ∃ st₄, decryptReputationProof st₃ 77 30 50 = Except.ok st₄ ∧
           st₄.decryptedProofs 1 = ⟨30, 50, true⟩)) :=
  ⟨_, rfl, C2_proof_lifecycle stW2 5 30 1 _ [] 77 rfl⟩

lemma foldl_vcFoldStep_sum (st : ContractState) (l : List Nat) :
    ∀ a b c : Nat,
      a + scoreSumIds st l < U32 →
      b + weightSumIds st l < U32 →
      c + activeCountIds st l < U32 →
      l.foldl (vcFoldStep st) (a, b, c) =
        (a + scoreSumIds st l, b + weightSumIds st l,
         c + activeCountIds st l) := by
  induction l with
  | nil =>
    intro a b c _ _ _
    simp [scoreSumIds, weightSumIds, activeCountIds, sumActive]
  | cons cid rest ih =>
    intro a b c ha hb hc
    by_cases hact : (st.verifiableCredentials cid).isActive = true
    · have hs : scoreSumIds st (cid :: rest) =
          (st.verifiableCredentials cid).encryptedScore *
            (st.verifiableCredentials cid).encryptedWeight +
          scoreSumIds st rest := by
        simp [scoreSumIds, sumActive, hact]
      have hw : weightSumIds st (cid :: rest) =
          (st.verifiableCredentials cid).encryptedWeight +
          weightSumIds st rest := by
        simp [weightSumIds, sumActive, hact]
      have hcnt : activeCountIds st (cid :: rest) =
          1 + activeCountIds st rest := by
        simp [activeCountIds, sumActive, hact]
      rw [hs] at ha ⊢
      rw [hw] at hb ⊢
      rw [hcnt] at hc ⊢
      have hsw : (st.verifiableCredentials cid).encryptedScore *
          (st.verifiableCredentials cid).encryptedWeight < U32 := by omega
      have estep : vcFoldStep st (a, b, c) cid =
          (a + (st.verifiableCredentials cid).encryptedScore *
             (st.verifiableCredentials cid).encryptedWeight,
           b + (st.verifiableCredentials cid).encryptedWeight,
           c + 1) := by
      
        have e1 : (st.verifiableCredentials cid).encryptedScore *
            (st.verifiableCredentials cid).encryptedWeight % U32 =
            (st.verifiableCredentials cid).encryptedScore *
            (st.verifiableCredentials cid).encryptedWeight :=
          Nat.mod_eq_of_lt hsw
        have e2 : (1 : Nat) % U32 = 1 := by norm_num [U32]
        simp only [vcFoldStep, hact, if_true, fheAdd, fheMul, asEuint32, e1,
          e2, Prod.mk.injEq]
        refine ⟨Nat.mod_eq_of_lt (by omega), Nat.mod_eq_of_lt (by omega),
          Nat.mod_eq_of_lt (by omega)⟩
      rw [List.foldl_cons, estep,
        ih (a + (st.verifiableCredentials cid).encryptedScore *
              (st.verifiableCredentials cid).encryptedWeight)
           (b + (st.verifiableCredentials cid).encryptedWeight)
           (c + 1) (by omega) (by omega) (by omega)]
      simp only [Prod.mk.injEq]
      omega
    · have hs : scoreSumIds st (cid :: rest) = scoreSumIds st rest := by
        simp [scoreSumIds, sumActive, hact]
      have hw : weightSumIds st (cid :: rest) = weightSumIds st rest := by
        simp [weightSumIds, sumActive, hact]
      have hcnt : activeCountIds st (cid :: rest) = activeCountIds st rest := by
        simp [activeCountIds, sumActive, hact]
      have estep : vcFoldStep st (a, b, c) cid = (a, b, c) := by
        simp [vcFoldStep, hact]
      rw [hs] at ha ⊢
      rw [hw] at hb ⊢
      rw [hcnt] at hc ⊢
      rw [List.foldl_cons, estep]
      exact ih a b c ha hb hc

/-- C1: recompute (updateReputationProfile) fails with ProfileUninitialized
    for a never-initialized subject; for an initialized subject it folds
    over all of the subject's credentials and stores totalScore equal to
    the active score-times-weight sum divided (floor) by the active weight
    sum floored at 1, credentialCount equal to the number of active
    credentials, and trustLevel equal to totalScore / 10 plus
    credentialCount / 5 under floor division; inactive credentials
    contribute to none of the sums.  The overflow side conditions pin the
    sums inside the 32-bit encrypted domain, where the wrap-free arithmetic
    of the claim applies. -/
theorem C1_recompute_spec (st : ContractState) (subject : Nat)
    (hscore : scoreSumIds st (st.userCredentials subject) < U32)
    (hweight : weightSumIds st (st.userCredentials subject) < U32)
    (hcount : activeCountIds st (st.userCredentials subject) < U32) :
    ((st.reputationProfiles subject).isInitialized = false →
      updateReputationProfile st subject =
        Except.error Err.ProfileUninitialized) ∧
    ((st.reputationProfiles subject).isInitialized = true →
      ∃ st', updateReputationProfile st subject = Except.ok st' ∧
        (st'.reputationProfiles subject).encryptedTotalScore =
          scoreSumIds st (st.userCredentials subject) /
            max (weightSumIds st (st.userCredentials subject)) 1 ∧
        (st'.reputationProfiles subject).encryptedCredentialCount =
          activeCountIds st (st.userCredentials subject) ∧
        (st'.reputationProfiles subject).encryptedTrustLevel =
          (st'.reputationProfiles subject).encryptedTotalScore / 10 +
            (st'.reputationProfiles subject).encryptedCredentialCount / 5) := by
  have hfold : recomputeFold st subject =
      (scoreSumIds st (st.userCredentials subject),
       weightSumIds st (st.userCredentials subject),
       activeCountIds st (st.userCredentials subject)) := by
    have e0 : asEuint32 0 = 0 := by norm_num [asEuint32, U32]
    unfold recomputeFold
    rw [e0]
    have := foldl_vcFoldStep_sum st (st.userCredentials subject) 0 0 0
      (by omega) (by omega) (by omega)
    simpa using this
  have e1 : asEuint32 1 = 1 := by norm_num [asEuint32, U32]
  have etotal : (recomputedProfile st subject).encryptedTotalScore =
      scoreSumIds st (st.userCredentials subject) /
        max (weightSumIds st (st.userCredentials subject)) 1 := by
    simp [recomputedProfile, hfold, fheDiv, fheMax, e1]
  have ecount : (recomputedProfile st subject).encryptedCredentialCount =
      activeCountIds st (st.userCredentials subject) := by
    simp [recomputedProfile, hfold]
  have etrust : (recomputedProfile st subject).encryptedTrustLevel =
      (recomputedProfile st subject).encryptedTotalScore / 10 +
        (recomputedProfile st subject).encryptedCredentialCount / 5 := by
    have htot_lt : (recomputedProfile st subject).encryptedTotalScore < U32 := by
      rw [etotal]
      exact lt_of_le_of_lt (Nat.div_le_self _ _) hscore
    have hcnt_lt :
        (recomputedProfile st subject).encryptedCredentialCount < U32 := by
      rw [ecount]
      exact hcount
    have hsum_lt : (recomputedProfile st subject).encryptedTotalScore / 10 +
        (recomputedProfile st subject).encryptedCredentialCount / 5 < U32 := by
      have h1 : (recomputedProfile st subject).encryptedTotalScore / 10 ≤
          (U32 - 1) / 10 := Nat.div_le_div_right (by omega)
      have h2 : (recomputedProfile st subject).encryptedCredentialCount / 5 ≤
          (U32 - 1) / 5 := Nat.div_le_div_right (by omega)
      have h3 : (U32 - 1) / 10 + (U32 - 1) / 5 < U32 := by norm_num [U32]
      omega
    have e10 : asEuint32 10 = 10 := by norm_num [asEuint32, U32]
    have e5 : asEuint32 5 = 5 := by norm_num [asEuint32, U32]
    have hmod := Nat.mod_eq_of_lt hsum_lt
    simp only [recomputedProfile, calculateTrustLevel, fheAdd, fheDiv, e10,
      e5] at hmod ⊢
    simpa using hmod
  constructor
  · intro hni
    simp [updateReputationProfile, hni]
  · intro hinit
    refine ⟨_, update_ok_intro hinit, ?_⟩
    have eprof : ({ st with
        reputationProfiles := setMap st.reputationProfiles subject
          (recomputedProfile st subject) } : ContractState).reputationProfiles
        subject = recomputedProfile st subject := setMap_same _ _ _
    rw [eprof]
    exact ⟨etotal, ecount, etrust⟩

theorem C1_recompute_spec_witness :
    scoreSumIds stW (stW.userCredentials 5) < U32 ∧
    weightSumIds stW (stW.userCredentials 5) < U32 ∧
    activeCountIds stW (stW.userCredentials 5) < U32 ∧
    (stW.reputationProfiles 5).isInitialized = true ∧
    (∃ st', updateReputationProfile stW 5 = Except.ok st' ∧
      (st'.reputationProfiles 5).encryptedTotalScore =
        scoreSumIds stW (stW.userCredentials 5) /
          max (weightSumIds stW (stW.userCredentials 5)) 1 ∧
      (st'.reputationProfiles 5).encryptedCredentialCount =
        activeCountIds stW (stW.userCredentials 5) ∧
      (st'.reputationProfiles 5).encryptedTrustLevel =
        (st'.reputationProfiles 5).encryptedTotalScore / 10 +
          (st'.reputationProfiles 5).encryptedCredentialCount / 5) :=
  ⟨by decide, by decide, by decide, by decide,
   (C1_recompute_spec stW 5 (by decide) (by decide) (by decide)).2
     (by decide)⟩

lemma sumActive_filter (st : ContractState) (f : EncryptedVC → Nat) (c : Nat)
    (hc : (st.verifiableCredentials c).isActive = false) :
    ∀ l : List Nat,
      sumActive st f (l.filter (fun i => i ≠ c)) = sumActive st f l := by
  intro l
  induction l with
  | nil => rfl
  | cons i rest ih =>
    simp only [ne_eq, decide_not] at ih
    by_cases hi : i = c
    · subst hi
      simp [List.filter_cons, sumActive, hc, ih]
    · simp [List.filter_cons, sumActive, hi, ih]

lemma foldl_vcFoldStep_filter (st : ContractState) (c : Nat)
    (hc : (st.verifiableCredentials c).isActive = false) :
    ∀ (l : List Nat) (acc : Nat × Nat × Nat),
      (l.filter (fun i => i ≠ c)).foldl (vcFoldStep st) acc =
        l.foldl (vcFoldStep st) acc := by
  intro l
  induction l with
  | nil =>
    intro acc
    rfl
  | cons i rest ih =>
    intro acc
    simp only [ne_eq, decide_not] at ih
    by_cases hi : i = c
    · subst hi
      have estep : vcFoldStep st acc i = acc := by
        simp [vcFoldStep, hc]
      simp [List.filter_cons, estep, ih]
    · simp [List.filter_cons, hi, ih]

/-- C4: after a successful revocation of credential vcId and a recompute of
    its subject's profile, the revoked credential contributes to none of
    the score sum, the weight sum, or the active-credential count (the
    recomputed profile equals the one computed with vcId removed from the
    subject's credential list entirely), while the credential remains
    readable via getEncryptedVC with all its original fields intact and
    isActive = false. -/
theorem C4_revoke_excludes (st : ContractState) (caller vcId : Nat)
    (hissuer : (st.verifiableCredentials vcId).issuer = caller)
    (hinit : (st.reputationProfiles
      ((st.verifiableCredentials vcId).subject)).isInitialized = true) :
    ∃ st', revokeCredential st caller vcId = Except.ok st' ∧
      getEncryptedVC st' vcId = Except.ok
        (caller, (st.verifiableCredentials vcId).subject,
         (st.verifiableCredentials vcId).encryptedType,
         (st.verifiableCredentials vcId).encryptedScore,
         (st.verifiableCredentials vcId).encryptedWeight,
         (st.verifiableCredentials vcId).timestamp, false) ∧
      scoreSumIds st'
          ((st'.userCredentials
            ((st.verifiableCredentials vcId).subject)).filter
            (fun i => i ≠ vcId)) =
        scoreSumIds st'
          (st'.userCredentials ((st.verifiableCredentials vcId).subject)) ∧
      weightSumIds st'
          ((st'.userCredentials
            ((st.verifiableCredentials vcId).subject)).filter
            (fun i => i ≠ vcId)) =
        weightSumIds st'
          (st'.userCredentials ((st.verifiableCredentials vcId).subject)) ∧
      activeCountIds st'
          ((st'.userCredentials
            ((st.verifiableCredentials vcId).subject)).filter
            (fun i => i ≠ vcId)) =
        activeCountIds st'
          (st'.userCredentials ((st.verifiableCredentials vcId).subject)) ∧
      ∃ st₂ st₃,
        updateReputationProfile st'
          ((st.verifiableCredentials vcId).subject) = Except.ok st₂ ∧
        updateReputationProfile
          (withCredentialRemoved st'
            ((st.verifiableCredentials vcId).subject) vcId)
          ((st.verifiableCredentials vcId).subject) = Except.ok st₃ ∧
        st₂.reputationProfiles ((st.verifiableCredentials vcId).subject) =
          st₃.reputationProfiles ((st.verifiableCredentials vcId).subject) := by
  set subj := (st.verifiableCredentials vcId).subject with hsubj
  set st' : ContractState :=
    { st with
      verifiableCredentials := setMap st.verifiableCredentials vcId
        { st.verifiableCredentials vcId with isActive := false } }
    with hst'
  have hcact : (st'.verifiableCredentials vcId).isActive = false := by
    simp [hst', setMap]
  refine ⟨st', revoke_ok hissuer, ?_, sumActive_filter st' _ vcId hcact _,
    sumActive_filter st' _ vcId hcact _, sumActive_filter st' _ vcId hcact _,
    ?_⟩
  · simp [getEncryptedVC, hst', setMap, hissuer]
  · have hinit' : (st'.reputationProfiles subj).isInitialized = true := hinit
    have hinit'' :
        ((withCredentialRemoved st' subj vcId).reputationProfiles
          subj).isInitialized = true := hinit
    have elist : (withCredentialRemoved st' subj vcId).userCredentials subj =
        (st'.userCredentials subj).filter (fun i => i ≠ vcId) := by
      simp [withCredentialRemoved]
    have efold : recomputeFold (withCredentialRemoved st' subj vcId) subj =
        recomputeFold st' subj := by
      unfold recomputeFold
      rw [elist]
      exact foldl_vcFoldStep_filter st' vcId hcact _ _
    have eprofeq : recomputedProfile (withCredentialRemoved st' subj vcId)
        subj = recomputedProfile st' subj := by
      simp only [recomputedProfile]
      rw [efold]
      exact rfl
    refine ⟨_, _, update_ok_intro hinit', update_ok_intro hinit'', ?_⟩
    calc ({ st' with
            reputationProfiles := setMap st'.reputationProfiles subj
              (recomputedProfile st' subj) } : ContractState).reputationProfiles
            subj
        = recomputedProfile st' subj := setMap_same _ _ _
      _ = recomputedProfile (withCredentialRemoved st' subj vcId) subj :=
          eprofeq.symm
      _ = ({ withCredentialRemoved st' subj vcId with
             reputationProfiles := setMap
               (withCredentialRemoved st' subj vcId).reputationProfiles subj
               (recomputedProfile (withCredentialRemoved st' subj vcId) subj)
           } : ContractState).reputationProfiles subj :=
          (setMap_same _ _ _).symm

theorem C4_revoke_excludes_witness :
    (stW.verifiableCredentials 2).issuer = 9 ∧
    (stW.reputationProfiles 5).isInitialized = true ∧
    (∃ st', revokeCredential stW 9 2 = Except.ok st' ∧
      getEncryptedVC st' 2 = Except.ok (9, 5, 1, 60, 1, 1001, false) ∧
      scoreSumIds st' ((st'.userCredentials 5).filter (fun i => i ≠ 2)) =
        scoreSumIds st' (st'.userCredentials 5) ∧
      weightSumIds st' ((st'.userCredentials 5).filter (fun i => i ≠ 2)) =
        weightSumIds st' (st'.userCredentials 5) ∧
      activeCountIds st' ((st'.userCredentials 5).filter (fun i => i ≠ 2)) =
        activeCountIds st' (st'.userCredentials 5) ∧
      ∃ st₂ st₃,
        updateReputationProfile st' 5 = Except.ok st₂ ∧
        updateReputationProfile (withCredentialRemoved st' 5 2) 5 =
          Except.ok st₃ ∧
        st₂.reputationProfiles 5 = st₃.reputationProfiles 5) :=
  ⟨by decide, by decide, C4_revoke_excludes stW 9 2 (by decide) (by decide)⟩
